import Mathlib

/-!
Verification of the warehouse order lifecycle of the Fragbuy API.

The development shallowly embeds the handlers of
`routers/replenishment.py`, `routers/putaway.py` and
`routers/bulk_storage.py`. The relational store is modelled as explicit
lists of rows; every handler is a pure function from a database state and
a validated request to the new database state together with an outcome
that mirrors the JSON response (success / warning) or the raised
HTTPException (identified by its `error_code` string literal from the
source).
-/

/-! ## Replenishment data model (tables `replen_orders`, `replen_order_items`) -/

/-- A row of the `replen_orders` table. `ro_status` holds the literal
status strings used by the source: "Unassigned", "In Process", "Completed". -/
structure ReplenOrder where
  ro_id : String
  ro_status : String
  destination : String
  deriving Repr, DecidableEq

/-- A row of the `replen_order_items` table. `qty` is the requested
quantity, `qty_picked` the recorded pick. -/
structure ReplenItem where
  id : Nat
  ro_id : String
  sku : String
  qty : Int
  qty_picked : Int
  rack_location : String
  note : Option String
  deriving Repr, DecidableEq

/-- The replenishment database state. -/
structure ReplenDb where
  orders : List ReplenOrder
  items : List ReplenItem
  deriving Repr, DecidableEq

/-- Python truthiness of the optional `note` column / request field:
`if request.note:` is false for `None` and for the empty string
(the pydantic validator also converts an all-whitespace note to `None`). -/
def noteTruthy : Option String → Bool
  | none => false
  | some s => !s.isEmpty

/-! ## `ro_item_picked` (POST /ro_item_picked) -/

/-- Validated `ReplenishmentItemPickedRequest`. -/
structure ItemPickedRequest where
  ro_id : String
  sku : String
  rack_location : String
  qty_picked : Int
  note : Option String
  test_insufficient_stock : Bool
  deriving Repr, DecidableEq

/-- Success body of `ro_item_picked`: the handler echoes the inputs, always
with the fixed message, and includes the note only when truthy. -/
structure PickResponse where
  message : String
  ro_id : String
  sku : String
  rack_location : String
  qty_picked : Int
  note : Option String
  deriving Repr, DecidableEq

/-- Outcome of `ro_item_picked`. Error constructors carry the
`error_code` of the HTTPException raised by the source. -/
inductive PickOutcome where
  /-- error_code ITEM_NOT_FOUND, HTTP 404 -/
  | itemNotFound
  /-- error_code ORDER_ALREADY_COMPLETED, HTTP 400 -/
  | orderAlreadyCompleted
  /-- error_code INSUFFICIENT_STOCK, HTTP 400 -/
  | insufficientStock
  /-- HTTP 200 success body -/
  | ok (resp : PickResponse)
  deriving Repr, DecidableEq

/-- The `error_code` string literal of the HTTPException the source raises
for this outcome, `none` on success. -/
def PickOutcome.errorCode : PickOutcome → Option String
  | .itemNotFound => some "ITEM_NOT_FOUND"
  | .orderAlreadyCompleted => some "ORDER_ALREADY_COMPLETED"
  | .insufficientStock => some "INSUFFICIENT_STOCK"
  | .ok _ => none

/-- The item-lookup query of `ro_item_picked`: `replen_order_items` JOIN
`replen_orders` on `ro_id`, filtered by `ro_id`, `sku`, `rack_location`;
`fetchone` takes the first row. A missing order makes the join empty, so
the handler cannot distinguish it from a missing line. -/
def findPickRow (db : ReplenDb) (req : ItemPickedRequest) :
    Option (ReplenItem × ReplenOrder) :=
  (db.items.find? fun i =>
      i.ro_id == req.ro_id && i.sku == req.sku && i.rack_location == req.rack_location).bind
    fun i => (db.orders.find? fun o => o.ro_id == req.ro_id).map fun o => (i, o)

/-- Embedding of `ro_item_picked` (routers/replenishment.py lines 217-402).
The informational completion query at the end of the handler reads state
only and does not affect the response, so it is not modelled. The pick
update runs `WHERE id = :item_id`, the status update `WHERE ro_id = :ro_id`. -/
def ro_item_picked (db : ReplenDb) (req : ItemPickedRequest) :
    ReplenDb × PickOutcome :=
  match findPickRow db req with
  | none => (db, .itemNotFound)
  | some (item, ord) =>
    if ord.ro_status == "Completed" then (db, .orderAlreadyCompleted)
    else if req.test_insufficient_stock then (db, .insufficientStock)
    else
      let items1 := db.items.map fun i =>
        if i.id == item.id then
          if noteTruthy req.note then
            { i with qty_picked := req.qty_picked, note := req.note }
          else
            { i with qty_picked := req.qty_picked }
        else i
      let orders1 :=
        if ord.ro_status == "Unassigned" then
          db.orders.map fun o =>
            if o.ro_id == req.ro_id then { o with ro_status := "In Process" } else o
        else db.orders
      (⟨orders1, items1⟩,
       .ok { message := "Data Added; RO In Process", ro_id := req.ro_id,
             sku := req.sku, rack_location := req.rack_location,
             qty_picked := req.qty_picked,
             note := if noteTruthy req.note then req.note else none })

/-! ## `ro_pick_cancelled` (POST /ro_pick_cancelled) -/

/-- Outcome of `ro_pick_cancelled`. -/
inductive CancelOutcome where
  /-- error_code RO_NOT_FOUND, HTTP 404 -/
  | roNotFound
  /-- error_code INVALID_STATUS_FOR_CANCEL, HTTP 400 -/
  | invalidStatus (current : String)
  /-- HTTP 200 success body with previous and new status -/
  | ok (previous_status new_status : String)
  deriving Repr, DecidableEq

/-- Embedding of `ro_pick_cancelled` (routers/replenishment.py lines
404-493). Cancellation requires status "In Process"; it then sets the
order status to "Unassigned" and resets `qty_picked` of every line of the
order to 0 (`UPDATE replen_order_items SET qty_picked = 0 WHERE ro_id = :ro_id`). -/
def ro_pick_cancelled (db : ReplenDb) (ro_id : String) :
    ReplenDb × CancelOutcome :=
  match db.orders.find? fun o => o.ro_id == ro_id with
  | none => (db, .roNotFound)
  | some ord =>
    if ord.ro_status != "In Process" then (db, .invalidStatus ord.ro_status)
    else
      (⟨db.orders.map fun o =>
          if o.ro_id == ro_id then { o with ro_status := "Unassigned" } else o,
        db.items.map fun i =>
          if i.ro_id == ro_id then { i with qty_picked := 0 } else i⟩,
       .ok ord.ro_status "Unassigned")

/-! ## `ro_complete` (POST /ro_complete) -/

/-- Outcome of `ro_complete`. -/
inductive CompleteOutcome where
  /-- error_code RO_NOT_FOUND, HTTP 404 -/
  | roNotFound
  /-- HTTP 200 success body: order already marked Completed (idempotent) -/
  | alreadyCompleted
  /-- HTTP 200 body with "status": "warning" — picked of total items -/
  | warning (picked_items total_items : Int)
  /-- HTTP 200 success body with previous status and new status Completed -/
  | completed (previous_status : String)
  /-- error_code SERVER_ERROR, HTTP 500: on an order with no lines the SQL
  SUM aggregate is NULL, so `total_items > picked_items` is `0 > None`,
  a Python TypeError caught by the generic handler -/
  | serverError
  deriving Repr, DecidableEq

/-- Embedding of `ro_complete` (routers/replenishment.py lines 496-600).
The completion query computes `COUNT(*)` and
`SUM(CASE WHEN qty_picked > 0 THEN 1 ELSE 0 END)` over the order's lines;
over zero rows COUNT is 0 and SUM is NULL (modelled as `none`). -/
def ro_complete (db : ReplenDb) (ro_id : String) :
    ReplenDb × CompleteOutcome :=
  match db.orders.find? fun o => o.ro_id == ro_id with
  | none => (db, .roNotFound)
  | some ord =>
    if ord.ro_status == "Completed" then (db, .alreadyCompleted)
    else
      let rows := db.items.filter fun i => i.ro_id == ro_id
      let total_items : Int := rows.length
      let picked_items : Option Int :=
        if rows.isEmpty then none
        else some ((rows.map fun i => if i.qty_picked > 0 then (1 : Int) else 0).sum)
      match picked_items with
      | none => (db, .serverError)
      | some picked =>
        if total_items > picked then (db, .warning picked total_items)
        else
          (⟨db.orders.map fun o =>
              if o.ro_id == ro_id then { o with ro_status := "Completed" } else o,
            db.items⟩,
           .completed ord.ro_status)

/-! ## `ro_retrieve_order` (POST /ro_retrieve_order) -/

/-- A line as serialized in the retrieval response: the note key is present
only when the column value is truthy. -/
structure RetrieveItem where
  id : Nat
  sku : String
  qty : Int
  qty_picked : Int
  rack_location : String
  note : Option String
  deriving Repr, DecidableEq

/-- Success body of `ro_retrieve_order`. -/
structure RetrieveResponse where
  ro_id : String
  ro_status : String
  destination : String
  items : List RetrieveItem
  item_count : Nat
  status_changed : Bool
  deriving Repr, DecidableEq

/-- Outcome of `ro_retrieve_order`. -/
inductive RetrieveOutcome where
  /-- error_code RO_NOT_FOUND, HTTP 404 -/
  | roNotFound
  /-- HTTP 200 success body -/
  | ok (resp : RetrieveResponse)
  deriving Repr, DecidableEq

/-- The item query of `ro_retrieve_order` and its serialization loop: the
order's lines sorted by `sku`, each serialized with the note key present
only when the column value is truthy. -/
def retrieveRows (db : ReplenDb) (ro_id : String) : List RetrieveItem :=
  ((db.items.filter fun i => i.ro_id == ro_id).mergeSort
      fun a b => a.sku ≤ b.sku).map
    fun i => RetrieveItem.mk i.id i.sku i.qty i.qty_picked i.rack_location
      (if noteTruthy i.note then i.note else none)

/-- Embedding of `ro_retrieve_order` (routers/replenishment.py lines
98-215). Retrieval of an "Unassigned" order flips it to "In Process" as a
side effect; the response carries the post-transition status. -/
def ro_retrieve_order (db : ReplenDb) (ro_id : String) :
    ReplenDb × RetrieveOutcome :=
  match db.orders.find? fun o => o.ro_id == ro_id with
  | none => (db, .roNotFound)
  | some ord =>
    let status_changed := ord.ro_status == "Unassigned"
    let current_status := if status_changed then "In Process" else ord.ro_status
    let db1 : ReplenDb :=
      if status_changed then
        ⟨db.orders.map fun o =>
            if o.ro_id == ro_id then { o with ro_status := "In Process" } else o,
          db.items⟩
      else db
    let rows := retrieveRows db1 ro_id
    (db1,
     .ok { ro_id := ord.ro_id, ro_status := current_status,
           destination := ord.destination, items := rows,
           item_count := rows.length, status_changed := status_changed })

/-! ## Order creation: putaway (POST /putawayOrder) -/

/-- Validated `PutawayItem` of the request body (name and barcode optional). -/
structure PutawayReqItem where
  sku : String
  name : Option String
  barcode : Option String
  quantity : Int
  deriving Repr, DecidableEq

/-- Validated `PutawayOrder` request body. -/
structure PutawayOrderReq where
  tote : String
  items : List PutawayReqItem
  test_insufficient_stock : Bool
  deriving Repr, DecidableEq

/-- A row of the `putaway_orders` table (header). -/
structure PutawayHeader where
  id : Nat
  tote : String
  deriving Repr, DecidableEq

/-- A row of the `putaway_items` table. -/
structure PutawayItemRow where
  order_id : Nat
  sku : String
  name : Option String
  barcode : Option String
  quantity : Int
  deriving Repr, DecidableEq

/-- The putaway database state; `next_id` models the generated id
returned by `INSERT ... RETURNING id`. -/
structure PutawayDb where
  next_id : Nat
  headers : List PutawayHeader
  items : List PutawayItemRow
  deriving Repr, DecidableEq

/-- Outcome of order creation; constructors carry the `error_code` of the
raised error in their doc string. -/
inductive CreateOutcome where
  /-- error_code DUPLICATE_TOTE / DUPLICATE_LOCATION, HTTP 400 -/
  | duplicateKey
  /-- error_code QUANTITY_EXCEEDED, HTTP 400 -/
  | quantityExceeded
  /-- error_code INSUFFICIENT_STOCK, HTTP 400 -/
  | insufficientStock
  /-- error_code ITEM_INSERT_FAILED, HTTP 400, naming the offending SKU -/
  | itemInsertFailed (sku : String)
  /-- HTTP 200 success body -/
  | ok (order_id : Nat) (items_processed : Nat) (total_quantity : Int)
  deriving Repr, DecidableEq

/-- The `putaway_items` row inserted for a request item. -/
def putawayRow (order_id : Nat) (it : PutawayReqItem) : PutawayItemRow :=
  ⟨order_id, it.sku, it.name, it.barcode, it.quantity⟩

/-- The per-line insert loop of `create_putaway_order`. The store
collaborator is abstracted by `fails`: `fails it = true` means the INSERT
of that item raises `IntegrityError`. On the first failure the handler
deletes the header (`DELETE FROM putaway_orders WHERE id = :id`) and
aborts with the failing SKU; rows inserted before the failure stay. -/
def insertPutawayItems (order_id : Nat) (fails : PutawayReqItem → Bool) :
    List PutawayReqItem → PutawayDb → PutawayDb × Option String
  | [], db => (db, none)
  | it :: rest, db =>
    if fails it then
      ({ db with headers := db.headers.filter fun h => h.id != order_id }, some it.sku)
    else
      insertPutawayItems order_id fails rest
        { db with items := db.items ++ [putawayRow order_id it] }

/-- Embedding of `create_putaway_order` (routers/putaway.py lines 28-149). -/
def create_putaway_order (db : PutawayDb) (order : PutawayOrderReq)
    (fails : PutawayReqItem → Bool) : PutawayDb × CreateOutcome :=
  if (db.headers.filter fun h => h.tote == order.tote).length > 0 then
    (db, .duplicateKey)
  else
    let total_quantity : Int := (order.items.map fun it => it.quantity).sum
    if total_quantity > 100000 then (db, .quantityExceeded)
    else if order.test_insufficient_stock then (db, .insufficientStock)
    else
      let order_id := db.next_id
      let db1 : PutawayDb :=
        { db with next_id := db.next_id + 1,
                  headers := db.headers ++ [⟨order_id, order.tote⟩] }
      match insertPutawayItems order_id fails order.items db1 with
      | (db2, some sku) => (db2, .itemInsertFailed sku)
      | (db2, none) => (db2, .ok order_id order.items.length total_quantity)

/-! ## Order creation: bulk storage (POST /bulkStorage) -/

/-- Validated `BulkStorageItem` of the request body (name and barcode required). -/
structure BulkReqItem where
  sku : String
  name : String
  barcode : String
  quantity : Int
  deriving Repr, DecidableEq

/-- Validated `BulkStorageOrder` request body. -/
structure BulkOrderReq where
  location : String
  items : List BulkReqItem
  test_insufficient_stock : Bool
  deriving Repr, DecidableEq

/-- A row of the `bulk_storage_orders` table (header). -/
structure BulkHeader where
  id : Nat
  location : String
  deriving Repr, DecidableEq

/-- A row of the `bulk_storage_items` table. -/
structure BulkItemRow where
  order_id : Nat
  sku : String
  name : String
  barcode : String
  quantity : Int
  deriving Repr, DecidableEq

/-- The bulk storage database state. -/
structure BulkDb where
  next_id : Nat
  headers : List BulkHeader
  items : List BulkItemRow
  deriving Repr, DecidableEq

/-- The `bulk_storage_items` row inserted for a request item. -/
def bulkRow (order_id : Nat) (it : BulkReqItem) : BulkItemRow :=
  ⟨order_id, it.sku, it.name, it.barcode, it.quantity⟩

/-- The per-line insert loop of `create_bulk_storage`, with the same
compensating header delete as the putaway loop. -/
def insertBulkItems (order_id : Nat) (fails : BulkReqItem → Bool) :
    List BulkReqItem → BulkDb → BulkDb × Option String
  | [], db => (db, none)
  | it :: rest, db =>
    if fails it then
      ({ db with headers := db.headers.filter fun h => h.id != order_id }, some it.sku)
    else
      insertBulkItems order_id fails rest
        { db with items := db.items ++ [bulkRow order_id it] }

/-- Embedding of `create_bulk_storage` (routers/bulk_storage.py lines
30-151); identical to putaway creation except for the table names and the
1,000,000 total-quantity cap. -/
def create_bulk_storage (db : BulkDb) (order : BulkOrderReq)
    (fails : BulkReqItem → Bool) : BulkDb × CreateOutcome :=
  if (db.headers.filter fun h => h.location == order.location).length > 0 then
    (db, .duplicateKey)
  else
    let total_quantity : Int := (order.items.map fun it => it.quantity).sum
    if total_quantity > 1000000 then (db, .quantityExceeded)
    else if order.test_insufficient_stock then (db, .insufficientStock)
    else
      let order_id := db.next_id
      let db1 : BulkDb :=
        { db with next_id := db.next_id + 1,
                  headers := db.headers ++ [⟨order_id, order.location⟩] }
      match insertBulkItems order_id fails order.items db1 with
      | (db2, some sku) => (db2, .itemInsertFailed sku)
      | (db2, none) => (db2, .ok order_id order.items.length total_quantity)

/-! ## Helper lemmas -/

/-- `find?` by `ro_id` commutes with a keyed update that preserves `ro_id`
(the shape of every `UPDATE replen_orders ... WHERE ro_id = :ro_id`). -/
theorem find?_map_preserve (l : List ReplenOrder) (rid : String)
    (g : ReplenOrder → ReplenOrder) (hg : ∀ o, (g o).ro_id = o.ro_id) :
    ((l.map fun o => if o.ro_id == rid then g o else o).find? fun o => o.ro_id == rid) =
      (l.find? fun o => o.ro_id == rid).map g := by
  induction l with
  | nil => rfl
  | cons a l ih =>
    by_cases hb : a.ro_id = rid
    · have hb1 : (a.ro_id == rid) = true := by simpa using hb
      have hg1 : ((g a).ro_id == rid) = true := by simpa [hg] using hb
      have hfa : (if a.ro_id == rid then g a else a) = g a := if_pos hb1
      simp only [List.map_cons]
      rw [hfa]
      rw [List.find?_cons_of_pos, List.find?_cons_of_pos, Option.map_some']
      · exact hb1
      · exact hg1
    · have hbn : ¬((a.ro_id == rid) = true) := by simpa using hb
      have hfa : (if a.ro_id == rid then g a else a) = a := if_neg hbn
      simp only [List.map_cons]
      rw [hfa]
      rw [List.find?_cons_of_neg, List.find?_cons_of_neg, ih]
      · exact hbn
      · exact hbn

/-- The `SUM(CASE WHEN qty_picked > 0 THEN 1 ELSE 0 END)` aggregate counts
the lines with a positive pick. -/
theorem pickedSum_eq_count (l : List ReplenItem) :
    (l.map fun i => if i.qty_picked > 0 then (1 : Int) else 0).sum =
      ((l.filter fun i => i.qty_picked > 0).length : Int) := by
  induction l with
  | nil => rfl
  | cons a l ih =>
    by_cases h : a.qty_picked > 0
    · simp [List.filter_cons, h, ih]
      omega
    · simp [List.filter_cons, h, ih]

/-- When no line insert raises, the insert loop appends one row per item
and reports no failure. -/
theorem insertPutawayItems_all_ok (order_id : Nat) (fails : PutawayReqItem → Bool) :
    ∀ (l : List PutawayReqItem) (db : PutawayDb), (∀ x ∈ l, fails x = false) →
      insertPutawayItems order_id fails l db =
        ({ db with items := db.items ++ l.map (putawayRow order_id) }, none) := by
  intro l
  induction l with
  | nil => intro db _; simp [insertPutawayItems]
  | cons a l ih =>
    intro db hall
    have ha : fails a = false := hall a (List.mem_cons_self a l)
    have ih1 := ih { db with items := db.items ++ [putawayRow order_id a] }
      (fun x hx => hall x (List.mem_cons_of_mem a hx))
    simp [insertPutawayItems, ha, ih1]

/-- On the first failing line the insert loop stops with that SKU, deletes
the header rows with the generated id, and keeps the rows inserted so far. -/
theorem insertPutawayItems_first_fail (order_id : Nat) (fails : PutawayReqItem → Bool) :
    ∀ (pre : List PutawayReqItem) (it : PutawayReqItem) (post : List PutawayReqItem)
      (db : PutawayDb), (∀ x ∈ pre, fails x = false) → fails it = true →
      insertPutawayItems order_id fails (pre ++ it :: post) db =
        ({ db with headers := db.headers.filter fun h => h.id != order_id,
                   items := db.items ++ pre.map (putawayRow order_id) }, some it.sku) := by
  intro pre
  induction pre with
  | nil =>
    intro it post db _ hit
    simp [insertPutawayItems, hit]
  | cons a pre ih =>
    intro it post db hall hit
    have ha : fails a = false := hall a (List.mem_cons_self a pre)
    have ih1 := ih it post { db with items := db.items ++ [putawayRow order_id a] }
      (fun x hx => hall x (List.mem_cons_of_mem a hx)) hit
    simp [insertPutawayItems, ha, ih1]

/-- Bulk storage analogue of `insertPutawayItems_all_ok`. -/
theorem insertBulkItems_all_ok (order_id : Nat) (fails : BulkReqItem → Bool) :
    ∀ (l : List BulkReqItem) (db : BulkDb), (∀ x ∈ l, fails x = false) →
      insertBulkItems order_id fails l db =
        ({ db with items := db.items ++ l.map (bulkRow order_id) }, none) := by
  intro l
  induction l with
  | nil => intro db _; simp [insertBulkItems]
  | cons a l ih =>
    intro db hall
    have ha : fails a = false := hall a (List.mem_cons_self a l)
    have ih1 := ih { db with items := db.items ++ [bulkRow order_id a] }
      (fun x hx => hall x (List.mem_cons_of_mem a hx))
    simp [insertBulkItems, ha, ih1]

/-- Bulk storage analogue of `insertPutawayItems_first_fail`. -/
theorem insertBulkItems_first_fail (order_id : Nat) (fails : BulkReqItem → Bool) :
    ∀ (pre : List BulkReqItem) (it : BulkReqItem) (post : List BulkReqItem)
      (db : BulkDb), (∀ x ∈ pre, fails x = false) → fails it = true →
      insertBulkItems order_id fails (pre ++ it :: post) db =
        ({ db with headers := db.headers.filter fun h => h.id != order_id,
                   items := db.items ++ pre.map (bulkRow order_id) }, some it.sku) := by
  intro pre
  induction pre with
  | nil =>
    intro it post db _ hit
    simp [insertBulkItems, hit]
  | cons a pre ih =>
    intro it post db hall hit
    have ha : fails a = false := hall a (List.mem_cons_self a pre)
    have ih1 := ih it post { db with items := db.items ++ [bulkRow order_id a] }
      (fun x hx => hall x (List.mem_cons_of_mem a hx)) hit
    simp [insertBulkItems, ha, ih1]

/-! ## Concrete sample data for witnesses -/

/-- Sample order in status "Unassigned". -/
def ordU : ReplenOrder := ⟨"RO-1", "Unassigned", "Aisle 7"⟩

/-- Sample order in status "In Process". -/
def ordP : ReplenOrder := ⟨"RO-1", "In Process", "Aisle 7"⟩

/-- Sample order in status "Completed". -/
def ordC : ReplenOrder := ⟨"RO-1", "Completed", "Aisle 7"⟩

/-- Sample line for SKU-A (requested 10) with the given pick. -/
def itemA (qp : Int) : ReplenItem := ⟨1, "RO-1", "SKU-A", 10, qp, "R1-01", none⟩

/-- Sample line for SKU-B (requested 5) with the given pick. -/
def itemB (qp : Int) : ReplenItem := ⟨2, "RO-1", "SKU-B", 5, qp, "R1-02", none⟩

/-! ## Claim theorems -/

/-- C7: CompleteOrder is idempotent on a Completed order: on an existing
replenishment order whose status is Completed, `ro_complete` returns the
already-completed success response (not an error) and changes no state;
consequently calling it twice in a row on an order that reached Completed
on the first call returns success both times with no state difference. -/
theorem ro_complete_idempotent (db : ReplenDb) (rid : String) (ord : ReplenOrder)
    (hfind : db.orders.find? (fun o => o.ro_id == rid) = some ord) :
    (ord.ro_status = "Completed" →
      ro_complete db rid = (db, CompleteOutcome.alreadyCompleted)) ∧
    (∀ prev db1, ro_complete db rid = (db1, CompleteOutcome.completed prev) →
      ro_complete db1 rid = (db1, CompleteOutcome.alreadyCompleted)) := by
  constructor
  · intro hc
    simp [ro_complete, hfind, hc]
  · intro prev db1 h
    by_cases hc : ord.ro_status = "Completed"
    · simp [ro_complete, hfind, hc] at h
    · by_cases he : (db.items.filter fun i => i.ro_id == rid).isEmpty
      · simp [ro_complete, hfind, hc, he] at h
      · by_cases hgt : (((db.items.filter fun i => i.ro_id == rid).length : Int) >
            ((db.items.filter fun i => i.ro_id == rid).map fun i =>
              if i.qty_picked > 0 then (1 : Int) else 0).sum)
        · simp [ro_complete, hfind, hc, he, hgt] at h
        · have hrun : ro_complete db rid =
              (⟨db.orders.map fun o =>
                  if o.ro_id == rid then { o with ro_status := "Completed" } else o,
                db.items⟩, CompleteOutcome.completed ord.ro_status) := by
            simp [ro_complete, hfind, hc, he, hgt]
          rw [hrun] at h
          simp only [Prod.mk.injEq] at h
          obtain ⟨h1, _⟩ := h
          have hm := find?_map_preserve db.orders rid
            (fun o => { o with ro_status := "Completed" }) (fun o => rfl)
          have hfind1 : db1.orders.find? (fun o => o.ro_id == rid) =
              some { ord with ro_status := "Completed" } := by
            rw [← h1]
            exact hm.trans (by rw [hfind]; rfl)
          simp [ro_complete, hfind1]

/-- C7 witness: completing an order whose single line is picked, then
completing again, succeeds both times with no state change. -/
theorem ro_complete_idempotent_witness :
    ro_complete ⟨[ordC], [itemA 1]⟩ "RO-1" =
      (⟨[ordC], [itemA 1]⟩, CompleteOutcome.alreadyCompleted) :=
  (ro_complete_idempotent ⟨[ordC], [itemA 1]⟩ "RO-1" ordC (by decide)).1 (by decide)

/-- C10: on an existing non-Completed replenishment order with zero lines,
`ro_complete` neither completes the order nor returns the partial-pick
warning: the SUM aggregate over the empty line set is NULL and the
comparison `total_items > picked_items` raises, so the handler falls
through to the generic server-error path without changing state. -/
theorem ro_complete_no_lines_server_error (db : ReplenDb) (rid : String)
    (ord : ReplenOrder)
    (hfind : db.orders.find? (fun o => o.ro_id == rid) = some ord)
    (hnc : ord.ro_status ≠ "Completed")
    (hempty : db.items.filter (fun i => i.ro_id == rid) = []) :
    ro_complete db rid = (db, CompleteOutcome.serverError) := by
  simp [ro_complete, hfind, hnc, hempty]

/-- C10 witness: a line-less Unassigned order hits the server-error path. -/
theorem ro_complete_no_lines_server_error_witness :
    ro_complete ⟨[ordU], []⟩ "RO-1" = (⟨[ordU], []⟩, CompleteOutcome.serverError) :=
  ro_complete_no_lines_server_error ⟨[ordU], []⟩ "RO-1" ordU (by decide)
    (by decide) (by decide)

/-- C2: on an existing non-Completed replenishment order with at least one
line, `ro_complete` returns the success-shaped warning and changes no
state when the number of lines with `qty_picked > 0` is below the line
count, and marks the order Completed with a success response as soon as
every line has `qty_picked > 0`, regardless of whether any pick matches
the requested quantity ("touched", not "matched"). -/
theorem ro_complete_touched_criterion (db : ReplenDb) (rid : String)
    (ord : ReplenOrder)
    (hfind : db.orders.find? (fun o => o.ro_id == rid) = some ord)
    (hnc : ord.ro_status ≠ "Completed")
    (hne : db.items.filter (fun i => i.ro_id == rid) ≠ []) :
    (((db.items.filter fun i => i.ro_id == rid).filter
        fun i => i.qty_picked > 0).length <
        (db.items.filter fun i => i.ro_id == rid).length →
      ro_complete db rid = (db, CompleteOutcome.warning
        ((((db.items.filter fun i => i.ro_id == rid).filter
          fun i => i.qty_picked > 0).length : Int))
        (((db.items.filter fun i => i.ro_id == rid).length : Int)))) ∧
    ((∀ i ∈ db.items.filter (fun i => i.ro_id == rid), i.qty_picked > 0) →
      ro_complete db rid =
        (⟨db.orders.map fun o =>
            if o.ro_id == rid then { o with ro_status := "Completed" } else o,
          db.items⟩, CompleteOutcome.completed ord.ro_status) ∧
      ((ro_complete db rid).1.orders.find? fun o => o.ro_id == rid) =
        some { ord with ro_status := "Completed" }) := by
  have he : (db.items.filter fun i => i.ro_id == rid).isEmpty = false := by
    simpa using hne
  constructor
  · intro hlt
    simp [ro_complete, hfind, hnc, he, pickedSum_eq_count]
    simpa using hlt
  · intro hall
    have hcnt : ((db.items.filter fun i => i.ro_id == rid).filter
        fun i => i.qty_picked > 0) = db.items.filter fun i => i.ro_id == rid :=
      List.filter_eq_self.mpr (fun a ha => by simpa using hall a ha)
    have hrun : ro_complete db rid =
        (⟨db.orders.map fun o =>
            if o.ro_id == rid then { o with ro_status := "Completed" } else o,
          db.items⟩, CompleteOutcome.completed ord.ro_status) := by
      simp [ro_complete, hfind, hnc, he, pickedSum_eq_count]
      simpa using le_of_eq (congrArg List.length hcnt.symm)
    refine ⟨hrun, ?_⟩
    rw [hrun]
    exact (find?_map_preserve db.orders rid
      (fun o => { o with ro_status := "Completed" }) (fun o => rfl)).trans
      (by rw [hfind]; rfl)

/-- C2 witness: with lines requested 10/picked 0 and requested 5/picked 5
the call warns (1 of 2) and changes nothing; once both lines are touched
(picks 1 and 5) the order completes even though the first line is not
fully picked. -/
theorem ro_complete_touched_criterion_witness :
    ro_complete ⟨[ordP], [itemA 0, itemB 5]⟩ "RO-1" =
      (⟨[ordP], [itemA 0, itemB 5]⟩, CompleteOutcome.warning 1 2) ∧
    ro_complete ⟨[ordP], [itemA 1, itemB 5]⟩ "RO-1" =
      (⟨[ordC], [itemA 1, itemB 5]⟩, CompleteOutcome.completed "In Process") :=
  ⟨(ro_complete_touched_criterion ⟨[ordP], [itemA 0, itemB 5]⟩ "RO-1" ordP (by decide)
      (by decide) (by decide)).1 (by decide),
   ((ro_complete_touched_criterion ⟨[ordP], [itemA 1, itemB 5]⟩ "RO-1" ordP (by decide)
      (by decide) (by decide)).2 (by decide)).1⟩

/-- Retrieval of an order that is not "Unassigned" returns it unchanged
with the stored status and `status_changed = false`. -/
theorem ro_retrieve_order_no_change (db : ReplenDb) (rid : String)
    (ord : ReplenOrder)
    (hfind : db.orders.find? (fun o => o.ro_id == rid) = some ord)
    (hnu : ord.ro_status ≠ "Unassigned") :
    ro_retrieve_order db rid = (db, RetrieveOutcome.ok
      { ro_id := ord.ro_id, ro_status := ord.ro_status,
        destination := ord.destination, items := retrieveRows db rid,
        item_count := (retrieveRows db rid).length,
        status_changed := false }) := by
  simp [ro_retrieve_order, hfind, hnu]

/-- C4: retrieving an existing Unassigned order flips it to "In Process"
as a side effect of the retrieval itself, reports `status_changed = true`,
returns the post-transition status, and the very next read sees
"In Process" with no further change; retrieving an order in any other
status returns it unchanged with `status_changed = false`. -/
theorem ro_retrieve_order_first_touch (db : ReplenDb) (rid : String)
    (ord : ReplenOrder)
    (hfind : db.orders.find? (fun o => o.ro_id == rid) = some ord) :
    (ord.ro_status = "Unassigned" →
      ∃ resp, ro_retrieve_order db rid =
          (⟨db.orders.map fun o =>
              if o.ro_id == rid then { o with ro_status := "In Process" } else o,
            db.items⟩, RetrieveOutcome.ok resp) ∧
        resp.status_changed = true ∧ resp.ro_status = "In Process" ∧
        ((ro_retrieve_order db rid).1.orders.find? fun o => o.ro_id == rid) =
          some { ord with ro_status := "In Process" } ∧
        ∃ resp2, ro_retrieve_order (ro_retrieve_order db rid).1 rid =
            ((ro_retrieve_order db rid).1, RetrieveOutcome.ok resp2) ∧
          resp2.ro_status = "In Process" ∧ resp2.status_changed = false) ∧
    (ord.ro_status ≠ "Unassigned" →
      ∃ resp, ro_retrieve_order db rid = (db, RetrieveOutcome.ok resp) ∧
        resp.status_changed = false ∧ resp.ro_status = ord.ro_status) := by
  constructor
  · intro hu
    have hrun : ro_retrieve_order db rid =
        (⟨db.orders.map fun o =>
            if o.ro_id == rid then { o with ro_status := "In Process" } else o,
          db.items⟩,
         RetrieveOutcome.ok
           { ro_id := ord.ro_id, ro_status := "In Process",
             destination := ord.destination,
             items := retrieveRows ⟨db.orders.map fun o =>
               if o.ro_id == rid then { o with ro_status := "In Process" } else o,
               db.items⟩ rid,
             item_count := (retrieveRows ⟨db.orders.map fun o =>
               if o.ro_id == rid then { o with ro_status := "In Process" } else o,
               db.items⟩ rid).length,
             status_changed := true }) := by
      simp [ro_retrieve_order, hfind, hu]
    have hfind1 : ((db.orders.map fun o =>
        if o.ro_id == rid then { o with ro_status := "In Process" } else o).find?
          fun o => o.ro_id == rid) = some { ord with ro_status := "In Process" } :=
      (find?_map_preserve db.orders rid
        (fun o => { o with ro_status := "In Process" }) (fun o => rfl)).trans
        (by rw [hfind]; rfl)
    have hrun2 := ro_retrieve_order_no_change
      ⟨db.orders.map fun o =>
          if o.ro_id == rid then { o with ro_status := "In Process" } else o,
        db.items⟩ rid { ord with ro_status := "In Process" } hfind1 (by simp)
    refine ⟨_, hrun, rfl, rfl, ?_, ?_⟩
    · rw [hrun]
      exact hfind1
    · rw [hrun]
      exact ⟨_, hrun2, rfl, rfl⟩
  · intro hnu
    exact ⟨_, ro_retrieve_order_no_change db rid ord hfind hnu, rfl, rfl⟩

/-- C4 witness: retrieving a fresh Unassigned order flips it to
"In Process" with `status_changed = true`. -/
theorem ro_retrieve_order_first_touch_witness :
    (ro_retrieve_order ⟨[ordU], [itemA 0]⟩ "RO-1").1 = ⟨[ordP], [itemA 0]⟩ ∧
    ∃ resp, (ro_retrieve_order ⟨[ordU], [itemA 0]⟩ "RO-1").2 =
        RetrieveOutcome.ok resp ∧
      resp.status_changed = true ∧ resp.ro_status = "In Process" := by
  obtain ⟨resp, hrun, hchg, hst, -, -⟩ :=
    (ro_retrieve_order_first_touch ⟨[ordU], [itemA 0]⟩ "RO-1" ordU (by decide)).1
      (by decide)
  refine ⟨by rw [hrun]; rfl, resp, by rw [hrun], hchg, hst⟩

/-- C5: cancelling an order whose status is "In Process" resets the status
to "Unassigned" and every line's `qty_picked` to exactly 0 while leaving
notes untouched, deleting no line (count unchanged), and leaving every
other order and every other order's lines unaffected. -/
theorem ro_pick_cancelled_resets (db : ReplenDb) (rid : String) (ord : ReplenOrder)
    (hfind : db.orders.find? (fun o => o.ro_id == rid) = some ord)
    (hip : ord.ro_status = "In Process") :
    (ro_pick_cancelled db rid).2 = CancelOutcome.ok "In Process" "Unassigned" ∧
    ((ro_pick_cancelled db rid).1.orders.find? fun o => o.ro_id == rid) =
      some { ord with ro_status := "Unassigned" } ∧
    (ro_pick_cancelled db rid).1.items.length = db.items.length ∧
    (∀ i ∈ db.items, i.ro_id = rid →
      { i with qty_picked := 0 } ∈ (ro_pick_cancelled db rid).1.items) ∧
    (∀ i ∈ db.items, i.ro_id ≠ rid → i ∈ (ro_pick_cancelled db rid).1.items) ∧
    (∀ o ∈ db.orders, o.ro_id ≠ rid → o ∈ (ro_pick_cancelled db rid).1.orders) := by
  have hrun : ro_pick_cancelled db rid =
      (⟨db.orders.map fun o =>
          if o.ro_id == rid then { o with ro_status := "Unassigned" } else o,
        db.items.map fun i =>
          if i.ro_id == rid then { i with qty_picked := 0 } else i⟩,
       CancelOutcome.ok "In Process" "Unassigned") := by
    simp [ro_pick_cancelled, hfind, hip]
  rw [hrun]
  refine ⟨rfl, ?_, by simp, ?_, ?_, ?_⟩
  · exact (find?_map_preserve db.orders rid
      (fun o => { o with ro_status := "Unassigned" }) (fun o => rfl)).trans
      (by rw [hfind]; rfl)
  · intro i hi hieq
    exact List.mem_map.mpr ⟨i, hi, by simp [hieq]⟩
  · intro i hi hine
    exact List.mem_map.mpr ⟨i, hi, by simp [hine]⟩
  · intro o ho hone
    exact List.mem_map.mpr ⟨o, ho, by simp [hone]⟩

/-- C5 witness: cancelling an In Process order with one picked line resets
the pick to 0, keeps the line, and returns to Unassigned. -/
theorem ro_pick_cancelled_resets_witness :
    (ro_pick_cancelled ⟨[ordP], [itemA 7]⟩ "RO-1").2 =
      CancelOutcome.ok "In Process" "Unassigned" ∧
    itemA 0 ∈ (ro_pick_cancelled ⟨[ordP], [itemA 7]⟩ "RO-1").1.items :=
  ⟨(ro_pick_cancelled_resets ⟨[ordP], [itemA 7]⟩ "RO-1" ordP (by decide)
      (by decide)).1,
   (ro_pick_cancelled_resets ⟨[ordP], [itemA 7]⟩ "RO-1" ordP (by decide)
      (by decide)).2.2.2.1 (itemA 7) (by decide) (by decide)⟩

/-- C3: Completed is terminal. On an existing order with status
"Completed": RecordPick with its ro_id changes no state and, whenever a
matching line exists, fails with order-already-completed; CancelPicking
fails with invalid-status-for-cancel and changes no state; CompleteOrder
returns idempotent success with no change; and retrieval returns the order
still Completed with no transition. -/
theorem completed_is_terminal (db : ReplenDb) (rid : String) (ord : ReplenOrder)
    (hfind : db.orders.find? (fun o => o.ro_id == rid) = some ord)
    (hc : ord.ro_status = "Completed") :
    (∀ req : ItemPickedRequest, req.ro_id = rid →
      (ro_item_picked db req).1 = db ∧
      (∀ item, (db.items.find? fun i =>
          i.ro_id == req.ro_id && i.sku == req.sku &&
            i.rack_location == req.rack_location) = some item →
        (ro_item_picked db req).2 = PickOutcome.orderAlreadyCompleted)) ∧
    ro_pick_cancelled db rid = (db, CancelOutcome.invalidStatus "Completed") ∧
    ro_complete db rid = (db, CompleteOutcome.alreadyCompleted) ∧
    (∃ resp, ro_retrieve_order db rid = (db, RetrieveOutcome.ok resp) ∧
      resp.ro_status = "Completed" ∧ resp.status_changed = false) := by
  refine ⟨?_, ?_, ?_, ?_⟩
  · intro req hreq
    have hford : (db.orders.find? fun o => o.ro_id == req.ro_id) = some ord := by
      rw [hreq]
      exact hfind
    cases hit : (db.items.find? fun i =>
        i.ro_id == req.ro_id && i.sku == req.sku &&
          i.rack_location == req.rack_location) with
    | none =>
      have hr : ro_item_picked db req = (db, PickOutcome.itemNotFound) := by
        simp [ro_item_picked, findPickRow, hit]
      exact ⟨by rw [hr], fun item hitem => by simp [hit] at hitem⟩
    | some item0 =>
      have hr : ro_item_picked db req = (db, PickOutcome.orderAlreadyCompleted) := by
        simp [ro_item_picked, findPickRow, hit, hford, hc]
      exact ⟨by rw [hr], fun item _ => by rw [hr]⟩
  · simp [ro_pick_cancelled, hfind, hc]
  · simp [ro_complete, hfind, hc]
  · have hnu : ord.ro_status ≠ "Unassigned" := by
      rw [hc]
      decide
    exact ⟨_, ro_retrieve_order_no_change db rid ord hfind hnu, hc, rfl⟩

/-- C3 witness: on a Completed order, RecordPick on its line fails with
order-already-completed and CancelPicking fails with
invalid-status-for-cancel, with no state change. -/
theorem completed_is_terminal_witness :
    (ro_item_picked ⟨[ordC], [itemA 1]⟩
        ⟨"RO-1", "SKU-A", "R1-01", 4, none, false⟩).2 =
      PickOutcome.orderAlreadyCompleted ∧
    ro_pick_cancelled ⟨[ordC], [itemA 1]⟩ "RO-1" =
      (⟨[ordC], [itemA 1]⟩, CancelOutcome.invalidStatus "Completed") :=
  ⟨((completed_is_terminal ⟨[ordC], [itemA 1]⟩ "RO-1" ordC (by decide) (by decide)).1
      ⟨"RO-1", "SKU-A", "R1-01", 4, none, false⟩ rfl).2 (itemA 1) (by decide),
   (completed_is_terminal ⟨[ordC], [itemA 1]⟩ "RO-1" ordC (by decide)
      (by decide)).2.1⟩

/-- C6: a RecordPick that matches a line of an existing non-Completed
order, with the insufficient-stock override unset, overwrites the line's
`qty_picked` with exactly the supplied value (not an increment), overwrites
the note only when one is supplied, flips an Unassigned order to
"In Process", echoes the inputs in the confirmation, and never sets the
order's status to Completed — even if the pick leaves every line with
`qty_picked > 0`. -/
theorem ro_item_picked_overwrite (db : ReplenDb) (req : ItemPickedRequest)
    (item : ReplenItem) (ord : ReplenOrder)
    (hitem : (db.items.find? fun i =>
        i.ro_id == req.ro_id && i.sku == req.sku &&
          i.rack_location == req.rack_location) = some item)
    (hord : (db.orders.find? fun o => o.ro_id == req.ro_id) = some ord)
    (hst : ord.ro_status = "Unassigned" ∨ ord.ro_status = "In Process")
    (hstock : req.test_insufficient_stock = false) :
    (ro_item_picked db req).2 = PickOutcome.ok
      { message := "Data Added; RO In Process", ro_id := req.ro_id,
        sku := req.sku, rack_location := req.rack_location,
        qty_picked := req.qty_picked,
        note := if noteTruthy req.note then req.note else none } ∧
    (ro_item_picked db req).1.items = db.items.map (fun i =>
      if i.id == item.id then
        { i with qty_picked := req.qty_picked,
                 note := if noteTruthy req.note then req.note else i.note }
      else i) ∧
    ((ro_item_picked db req).1.orders.find? fun o => o.ro_id == req.ro_id) =
      some { ord with ro_status := "In Process" } ∧
    (∀ o ∈ (ro_item_picked db req).1.orders, o.ro_status = "Completed" →
      o ∈ db.orders) := by
  have hfun : ∀ i : ReplenItem,
      (if i.id == item.id then
        if noteTruthy req.note then
          { i with qty_picked := req.qty_picked, note := req.note }
        else { i with qty_picked := req.qty_picked }
      else i) =
      (if i.id == item.id then
        { i with qty_picked := req.qty_picked,
                 note := if noteTruthy req.note then req.note else i.note }
      else i) := by
    intro i
    by_cases hn : noteTruthy req.note <;> simp [hn]
  rcases hst with hu | hp
  · have hrun : ro_item_picked db req =
        (⟨db.orders.map fun o =>
            if o.ro_id == req.ro_id then { o with ro_status := "In Process" } else o,
          db.items.map fun i =>
            if i.id == item.id then
              if noteTruthy req.note then
                { i with qty_picked := req.qty_picked, note := req.note }
              else { i with qty_picked := req.qty_picked }
            else i⟩,
         PickOutcome.ok
           { message := "Data Added; RO In Process",
             ro_id := req.ro_id, sku := req.sku,
             rack_location := req.rack_location, qty_picked := req.qty_picked,
             note := if noteTruthy req.note then req.note else none }) := by
      simp [ro_item_picked, findPickRow, hitem, hord, hu, hstock]
    refine ⟨by rw [hrun], ?_, ?_, ?_⟩
    · rw [hrun]
      exact List.map_congr_left (fun i _ => hfun i)
    · rw [hrun]
      exact (find?_map_preserve db.orders req.ro_id
        (fun o => { o with ro_status := "In Process" }) (fun o => rfl)).trans
        (by rw [hord]; rfl)
    · rw [hrun]
      intro o ho hoc
      obtain ⟨o0, ho0, heq⟩ := List.mem_map.mp ho
      by_cases hid : o0.ro_id = req.ro_id
      · rw [if_pos (by simpa using hid)] at heq
        rw [← heq] at hoc
        simp at hoc
      · rw [if_neg (by simpa using hid)] at heq
        rw [← heq]
        exact ho0
  · have hordeq : ({ ord with ro_status := "In Process" } : ReplenOrder) = ord := by
      cases ord
      simp_all
    have hrun : ro_item_picked db req =
        (⟨db.orders,
          db.items.map fun i =>
            if i.id == item.id then
              if noteTruthy req.note then
                { i with qty_picked := req.qty_picked, note := req.note }
              else { i with qty_picked := req.qty_picked }
            else i⟩,
         PickOutcome.ok
           { message := "Data Added; RO In Process",
             ro_id := req.ro_id, sku := req.sku,
             rack_location := req.rack_location, qty_picked := req.qty_picked,
             note := if noteTruthy req.note then req.note else none }) := by
      simp [ro_item_picked, findPickRow, hitem, hord, hp, hstock]
    refine ⟨by rw [hrun], ?_, ?_, ?_⟩
    · rw [hrun]
      exact List.map_congr_left (fun i _ => hfun i)
    · rw [hrun]
      rw [hordeq]
      exact hord
    · rw [hrun]
      intro o ho _
      exact ho

/-- C6 witness: picking 7 of SKU-A with a note on a fresh Unassigned order
overwrites the pick to 7, stores the note, and echoes the inputs. -/
theorem ro_item_picked_overwrite_witness :
    (ro_item_picked ⟨[ordU], [itemA 0]⟩
        ⟨"RO-1", "SKU-A", "R1-01", 7, some "short by 3", false⟩).2 =
      PickOutcome.ok
        { message := "Data Added; RO In Process", ro_id := "RO-1",
          sku := "SKU-A", rack_location := "R1-01", qty_picked := 7,
          note := some "short by 3" } :=
  (ro_item_picked_overwrite ⟨[ordU], [itemA 0]⟩
    ⟨"RO-1", "SKU-A", "R1-01", 7, some "short by 3", false⟩ (itemA 0) ordU
    (by decide) (by decide) (Or.inl (by decide)) rfl).1

/-- C9 counterexample: a RecordPick whose ro_id names no existing order
does not fail with a distinct order-not-found error: it fails with the
same ITEM_NOT_FOUND error code that the handler uses when the order exists
but no line matches, because the lookup joins lines with orders and cannot
tell the two cases apart. -/
theorem record_pick_missing_order_counterexample :
    (ro_item_picked ⟨[], [⟨1, "RO-9", "SKU-A", 10, 0, "R1-01", none⟩]⟩
        ⟨"RO-9", "SKU-A", "R1-01", 3, none, false⟩).2.errorCode =
      some "ITEM_NOT_FOUND" ∧
    (ro_item_picked ⟨[⟨"RO-9", "Unassigned", "Aisle 2"⟩], []⟩
        ⟨"RO-9", "SKU-A", "R1-01", 3, none, false⟩).2.errorCode =
      some "ITEM_NOT_FOUND" := by
  decide

/-- C9 amended: a RecordPick whose ro_id names no existing replenishment
order fails with the line-not-found error (ITEM_NOT_FOUND) and changes no
state; the handler raises no separate order-not-found failure. -/
theorem record_pick_missing_order_item_not_found (db : ReplenDb)
    (req : ItemPickedRequest)
    (h : (db.orders.find? fun o => o.ro_id == req.ro_id) = none) :
    ro_item_picked db req = (db, PickOutcome.itemNotFound) ∧
    (ro_item_picked db req).2.errorCode = some "ITEM_NOT_FOUND" := by
  cases hit : (db.items.find? fun i =>
      i.ro_id == req.ro_id && i.sku == req.sku &&
        i.rack_location == req.rack_location) with
  | none =>
    have hr : ro_item_picked db req = (db, PickOutcome.itemNotFound) := by
      simp [ro_item_picked, findPickRow, hit]
    exact ⟨hr, by rw [hr]; rfl⟩
  | some item =>
    have hr : ro_item_picked db req = (db, PickOutcome.itemNotFound) := by
      simp [ro_item_picked, findPickRow, hit, h]
    exact ⟨hr, by rw [hr]; rfl⟩

/-- C9 amended witness: on an empty store the pick fails ITEM_NOT_FOUND. -/
theorem record_pick_missing_order_item_not_found_witness :
    ro_item_picked ⟨[], []⟩ ⟨"RO-9", "SKU-A", "R1-01", 3, none, false⟩ =
      (⟨[], []⟩, PickOutcome.itemNotFound) :=
  (record_pick_missing_order_item_not_found ⟨[], []⟩
    ⟨"RO-9", "SKU-A", "R1-01", 3, none, false⟩ (by decide)).1

/-- C1: when the duplicate, quantity and stock checks pass and the first
line-insert failure (an integrity violation) occurs on item `pit` (resp.
`bit`), order creation — putaway and bulk storage alike — returns the
item-insert-failed error naming that SKU, deletes the just-created header
so that no header with the request's header key remains findable, and
leaves the line rows inserted before the failure in place. -/
theorem create_order_compensating_delete
    (pdb : PutawayDb) (porder : PutawayOrderReq) (pfails : PutawayReqItem → Bool)
    (ppre : List PutawayReqItem) (pit : PutawayReqItem) (ppost : List PutawayReqItem)
    (hpdup : (pdb.headers.filter fun h => h.tote == porder.tote) = [])
    (hpqty : ¬((porder.items.map fun it => it.quantity).sum > 100000))
    (hpstock : porder.test_insufficient_stock = false)
    (hpsplit : porder.items = ppre ++ pit :: ppost)
    (hppre : ∀ x ∈ ppre, pfails x = false)
    (hpfail : pfails pit = true)
    (bdb : BulkDb) (border : BulkOrderReq) (bfails : BulkReqItem → Bool)
    (bpre : List BulkReqItem) (bit : BulkReqItem) (bpost : List BulkReqItem)
    (hbdup : (bdb.headers.filter fun h => h.location == border.location) = [])
    (hbqty : ¬((border.items.map fun it => it.quantity).sum > 1000000))
    (hbstock : border.test_insufficient_stock = false)
    (hbsplit : border.items = bpre ++ bit :: bpost)
    (hbpre : ∀ x ∈ bpre, bfails x = false)
    (hbfail : bfails bit = true) :
    ((create_putaway_order pdb porder pfails).2 =
        CreateOutcome.itemInsertFailed pit.sku ∧
      ((create_putaway_order pdb porder pfails).1.headers.filter
        fun h => h.tote == porder.tote) = [] ∧
      (create_putaway_order pdb porder pfails).1.items =
        pdb.items ++ ppre.map (putawayRow pdb.next_id)) ∧
    ((create_bulk_storage bdb border bfails).2 =
        CreateOutcome.itemInsertFailed bit.sku ∧
      ((create_bulk_storage bdb border bfails).1.headers.filter
        fun h => h.location == border.location) = [] ∧
      (create_bulk_storage bdb border bfails).1.items =
        bdb.items ++ bpre.map (bulkRow bdb.next_id)) := by
  constructor
  · have hdupn : ¬((pdb.headers.filter fun h => h.tote == porder.tote).length > 0) := by
      rw [hpdup]
      simp
    have hins : insertPutawayItems pdb.next_id pfails porder.items
        { pdb with next_id := pdb.next_id + 1,
                   headers := pdb.headers ++ [⟨pdb.next_id, porder.tote⟩] } =
        (({ next_id := pdb.next_id + 1,
            headers := (pdb.headers ++ [(⟨pdb.next_id, porder.tote⟩ : PutawayHeader)]).filter
              fun h => h.id != pdb.next_id,
            items := pdb.items ++ ppre.map (putawayRow pdb.next_id) } : PutawayDb),
         some pit.sku) := by
      rw [hpsplit]
      exact insertPutawayItems_first_fail pdb.next_id pfails ppre pit ppost _
        hppre hpfail
    have hrun : create_putaway_order pdb porder pfails =
        (({ next_id := pdb.next_id + 1,
            headers := (pdb.headers ++ [(⟨pdb.next_id, porder.tote⟩ : PutawayHeader)]).filter
              fun h => h.id != pdb.next_id,
            items := pdb.items ++ ppre.map (putawayRow pdb.next_id) } : PutawayDb),
         CreateOutcome.itemInsertFailed pit.sku) := by
      simp [create_putaway_order, hdupn, hpqty, hpstock, hins]
    have hhdr : (((pdb.headers ++ ([⟨pdb.next_id, porder.tote⟩] : List PutawayHeader)).filter
        fun h => h.id != pdb.next_id).filter fun h => h.tote == porder.tote) = [] := by
      refine List.filter_eq_nil_iff.mpr ?_
      intro x hx
      have hx2 := List.mem_filter.mp hx
      rcases List.mem_append.mp hx2.1 with hmem | hmem
      · exact List.filter_eq_nil_iff.mp hpdup x hmem
      · exfalso
        have : x = (⟨pdb.next_id, porder.tote⟩ : PutawayHeader) := by
          simpa using hmem
        rw [this] at hx2
        simpa using hx2.2
    exact ⟨by rw [hrun], by rw [hrun]; exact hhdr, by rw [hrun]⟩
  · have hdupn : ¬((bdb.headers.filter fun h => h.location == border.location).length > 0) := by
      rw [hbdup]
      simp
    have hins : insertBulkItems bdb.next_id bfails border.items
        { bdb with next_id := bdb.next_id + 1,
                   headers := bdb.headers ++ [⟨bdb.next_id, border.location⟩] } =
        (({ next_id := bdb.next_id + 1,
            headers := (bdb.headers ++ [(⟨bdb.next_id, border.location⟩ : BulkHeader)]).filter
              fun h => h.id != bdb.next_id,
            items := bdb.items ++ bpre.map (bulkRow bdb.next_id) } : BulkDb),
         some bit.sku) := by
      rw [hbsplit]
      exact insertBulkItems_first_fail bdb.next_id bfails bpre bit bpost _
        hbpre hbfail
    have hrun : create_bulk_storage bdb border bfails =
        (({ next_id := bdb.next_id + 1,
            headers := (bdb.headers ++ [(⟨bdb.next_id, border.location⟩ : BulkHeader)]).filter
              fun h => h.id != bdb.next_id,
            items := bdb.items ++ bpre.map (bulkRow bdb.next_id) } : BulkDb),
         CreateOutcome.itemInsertFailed bit.sku) := by
      simp [create_bulk_storage, hdupn, hbqty, hbstock, hins]
    have hhdr : (((bdb.headers ++ ([⟨bdb.next_id, border.location⟩] : List BulkHeader)).filter
        fun h => h.id != bdb.next_id).filter
        fun h => h.location == border.location) = [] := by
      refine List.filter_eq_nil_iff.mpr ?_
      intro x hx
      have hx2 := List.mem_filter.mp hx
      rcases List.mem_append.mp hx2.1 with hmem | hmem
      · exact List.filter_eq_nil_iff.mp hbdup x hmem
      · exfalso
        have : x = (⟨bdb.next_id, border.location⟩ : BulkHeader) := by
          simpa using hmem
        rw [this] at hx2
        simpa using hx2.2
    exact ⟨by rw [hrun], by rw [hrun]; exact hhdr, by rw [hrun]⟩

/-- Sample putaway request item (full fields, quantity 5). -/
def pItemA : PutawayReqItem := ⟨"SKU-A", some "Widget A", some "12345678", 5⟩

/-- Sample putaway request item (optional fields absent, quantity 3). -/
def pItemB : PutawayReqItem := ⟨"SKU-B", none, none, 3⟩

/-- Sample bulk storage request item (quantity 50). -/
def bItemA : BulkReqItem := ⟨"SKU-A", "Widget A", "12345678", 50⟩

/-- Sample bulk storage request item (quantity 30). -/
def bItemB : BulkReqItem := ⟨"SKU-B", "Widget B", "87654321", 30⟩

/-- C1 witness: with an integrity failure on SKU-B, both creation
handlers return item-insert-failed for SKU-B, leave no header for the
request key, and keep the SKU-A row inserted before the failure. -/
theorem create_order_compensating_delete_witness :
    ((create_putaway_order ⟨1, [], []⟩ ⟨"TOTE-7", [pItemA, pItemB], false⟩
        (fun it => it.sku == "SKU-B")).2 = CreateOutcome.itemInsertFailed "SKU-B" ∧
      ((create_putaway_order ⟨1, [], []⟩ ⟨"TOTE-7", [pItemA, pItemB], false⟩
          (fun it => it.sku == "SKU-B")).1.headers.filter
        fun h => h.tote == "TOTE-7") = [] ∧
      (create_putaway_order ⟨1, [], []⟩ ⟨"TOTE-7", [pItemA, pItemB], false⟩
          (fun it => it.sku == "SKU-B")).1.items = [putawayRow 1 pItemA]) ∧
    ((create_bulk_storage ⟨1, [], []⟩ ⟨"RACK-A1-01", [bItemA, bItemB], false⟩
        (fun it => it.sku == "SKU-B")).2 = CreateOutcome.itemInsertFailed "SKU-B" ∧
      (create_bulk_storage ⟨1, [], []⟩ ⟨"RACK-A1-01", [bItemA, bItemB], false⟩
          (fun it => it.sku == "SKU-B")).1.items = [bulkRow 1 bItemA]) := by
  obtain ⟨⟨hp1, hp2, hp3⟩, ⟨hb1, -, hb3⟩⟩ :=
    create_order_compensating_delete ⟨1, [], []⟩ ⟨"TOTE-7", [pItemA, pItemB], false⟩
      (fun it => it.sku == "SKU-B") [pItemA] pItemB [] (by decide) (by decide) rfl rfl
      (by decide) (by decide)
      ⟨1, [], []⟩ ⟨"RACK-A1-01", [bItemA, bItemB], false⟩
      (fun it => it.sku == "SKU-B") [bItemA] bItemB [] (by decide) (by decide) rfl rfl
      (by decide) (by decide)
  exact ⟨⟨hp1, hp2, hp3⟩, ⟨hb1, hb3⟩⟩

/-- C8: when an order with the same header key already exists, creation
(putaway and bulk storage alike) fails with the duplicate-key error and
performs no write; consequently after a successful creation a second call
with the same header key fails with duplicate-key, leaves the state of the
first call untouched, and the store holds exactly one header for that key. -/
theorem create_order_duplicate_key
    (pdb : PutawayDb) (porder porder2 : PutawayOrderReq)
    (pfails : PutawayReqItem → Bool)
    (bdb : BulkDb) (border border2 : BulkOrderReq) (bfails : BulkReqItem → Bool) :
    ((pdb.headers.filter fun h => h.tote == porder.tote) ≠ [] →
      create_putaway_order pdb porder pfails = (pdb, CreateOutcome.duplicateKey)) ∧
    ((pdb.headers.filter fun h => h.tote == porder.tote) = [] →
      ¬((porder.items.map fun it => it.quantity).sum > 100000) →
      porder.test_insufficient_stock = false →
      (∀ x ∈ porder.items, pfails x = false) →
      porder2.tote = porder.tote →
      (create_putaway_order pdb porder pfails).2 =
        CreateOutcome.ok pdb.next_id porder.items.length
          ((porder.items.map fun it => it.quantity).sum) ∧
      create_putaway_order (create_putaway_order pdb porder pfails).1 porder2 pfails =
        ((create_putaway_order pdb porder pfails).1, CreateOutcome.duplicateKey) ∧
      ((create_putaway_order pdb porder pfails).1.headers.filter
        fun h => h.tote == porder.tote).length = 1) ∧
    ((bdb.headers.filter fun h => h.location == border.location) ≠ [] →
      create_bulk_storage bdb border bfails = (bdb, CreateOutcome.duplicateKey)) ∧
    ((bdb.headers.filter fun h => h.location == border.location) = [] →
      ¬((border.items.map fun it => it.quantity).sum > 1000000) →
      border.test_insufficient_stock = false →
      (∀ x ∈ border.items, bfails x = false) →
      border2.location = border.location →
      (create_bulk_storage bdb border bfails).2 =
        CreateOutcome.ok bdb.next_id border.items.length
          ((border.items.map fun it => it.quantity).sum) ∧
      create_bulk_storage (create_bulk_storage bdb border bfails).1 border2 bfails =
        ((create_bulk_storage bdb border bfails).1, CreateOutcome.duplicateKey) ∧
      ((create_bulk_storage bdb border bfails).1.headers.filter
        fun h => h.location == border.location).length = 1) := by
  refine ⟨?_, ?_, ?_, ?_⟩
  · intro hne
    have hgt : ((pdb.headers.filter fun h => h.tote == porder.tote).length > 0) :=
      List.length_pos.mpr hne
    simp [create_putaway_order, hgt]
  · intro hdup hqty hstock hall htote2
    have hdupn : ¬((pdb.headers.filter fun h => h.tote == porder.tote).length > 0) := by
      rw [hdup]
      simp
    have hins := insertPutawayItems_all_ok pdb.next_id pfails porder.items
      { pdb with next_id := pdb.next_id + 1,
                 headers := pdb.headers ++ [⟨pdb.next_id, porder.tote⟩] } hall
    have hrun : create_putaway_order pdb porder pfails =
        (({ next_id := pdb.next_id + 1,
            headers := pdb.headers ++ [(⟨pdb.next_id, porder.tote⟩ : PutawayHeader)],
            items := pdb.items ++ porder.items.map (putawayRow pdb.next_id) } :
              PutawayDb),
         CreateOutcome.ok pdb.next_id porder.items.length
           ((porder.items.map fun it => it.quantity).sum)) := by
      simp [create_putaway_order, hdupn, hqty, hstock, hins]
    have hfl : ((pdb.headers ++ [(⟨pdb.next_id, porder.tote⟩ : PutawayHeader)]).filter
        fun h => h.tote == porder.tote) = [⟨pdb.next_id, porder.tote⟩] := by
      rw [List.filter_append, hdup]
      simp
    refine ⟨by rw [hrun], ?_, ?_⟩
    · rw [hrun]
      have hgt2 : (((pdb.headers ++ [(⟨pdb.next_id, porder.tote⟩ : PutawayHeader)]).filter
          fun h => h.tote == porder2.tote).length > 0) := by
        rw [htote2, hfl]
        simp
      simp [create_putaway_order, hgt2]
      intro _ hx
      exact absurd htote2.symm hx
    · rw [hrun]
      show ((pdb.headers ++ [(⟨pdb.next_id, porder.tote⟩ : PutawayHeader)]).filter
        fun h => h.tote == porder.tote).length = 1
      rw [hfl]
      rfl
  · intro hne
    have hgt : ((bdb.headers.filter fun h => h.location == border.location).length > 0) :=
      List.length_pos.mpr hne
    simp [create_bulk_storage, hgt]
  · intro hdup hqty hstock hall hloc2
    have hdupn : ¬((bdb.headers.filter fun h => h.location == border.location).length > 0) := by
      rw [hdup]
      simp
    have hins := insertBulkItems_all_ok bdb.next_id bfails border.items
      { bdb with next_id := bdb.next_id + 1,
                 headers := bdb.headers ++ [⟨bdb.next_id, border.location⟩] } hall
    have hrun : create_bulk_storage bdb border bfails =
        (({ next_id := bdb.next_id + 1,
            headers := bdb.headers ++ [(⟨bdb.next_id, border.location⟩ : BulkHeader)],
            items := bdb.items ++ border.items.map (bulkRow bdb.next_id) } : BulkDb),
         CreateOutcome.ok bdb.next_id border.items.length
           ((border.items.map fun it => it.quantity).sum)) := by
      simp [create_bulk_storage, hdupn, hqty, hstock, hins]
    have hfl : ((bdb.headers ++ [(⟨bdb.next_id, border.location⟩ : BulkHeader)]).filter
        fun h => h.location == border.location) = [⟨bdb.next_id, border.location⟩] := by
      rw [List.filter_append, hdup]
      simp
    refine ⟨by rw [hrun], ?_, ?_⟩
    · rw [hrun]
      have hgt2 : (((bdb.headers ++ [(⟨bdb.next_id, border.location⟩ : BulkHeader)]).filter
          fun h => h.location == border2.location).length > 0) := by
        rw [hloc2, hfl]
        simp
      simp [create_bulk_storage, hgt2]
      intro _ hx
      exact absurd hloc2.symm hx
    · rw [hrun]
      show ((bdb.headers ++ [(⟨bdb.next_id, border.location⟩ : BulkHeader)]).filter
        fun h => h.location == border.location).length = 1
      rw [hfl]
      rfl

/-- C8 witness: creating TOTE-7 (resp. RACK-A1-01) succeeds once; the
second call with the same key fails with duplicate-key and exactly one
header for the key remains. -/
theorem create_order_duplicate_key_witness :
    (create_putaway_order ⟨1, [], []⟩ ⟨"TOTE-7", [pItemA], false⟩
        (fun _ => false)).2 = CreateOutcome.ok 1 1 5 ∧
    create_putaway_order
        (create_putaway_order ⟨1, [], []⟩ ⟨"TOTE-7", [pItemA], false⟩
          (fun _ => false)).1
        ⟨"TOTE-7", [pItemB], false⟩ (fun _ => false) =
      ((create_putaway_order ⟨1, [], []⟩ ⟨"TOTE-7", [pItemA], false⟩
          (fun _ => false)).1, CreateOutcome.duplicateKey) ∧
    ((create_putaway_order ⟨1, [], []⟩ ⟨"TOTE-7", [pItemA], false⟩
        (fun _ => false)).1.headers.filter fun h => h.tote == "TOTE-7").length = 1 := by
  obtain ⟨-, h2, -⟩ :=
    create_order_duplicate_key ⟨1, [], []⟩ ⟨"TOTE-7", [pItemA], false⟩
      ⟨"TOTE-7", [pItemB], false⟩ (fun _ => false)
      ⟨1, [], []⟩ ⟨"RACK-A1-01", [bItemA], false⟩ ⟨"RACK-A1-01", [bItemB], false⟩
      (fun _ => false)
  obtain ⟨hok, hdup, hone⟩ := h2 (by decide) (by decide) rfl (by decide) rfl
  exact ⟨hok, hdup, hone⟩
